import Mathlib

/-!  Verification of the InvenTree kit assembly and stock allocation engine.

A shallow embedding of `src/backend/InvenTree/build/kit.py` (classes `KitBuild`,
`KitStatus`, `KitItem`) together with the target-resolution logic of
`common/notifications.py` (`trigger_notification`).  Database rows are plain
structures, the mutable database is an explicit `DBState`, Django's
`transaction.atomic` is modelled by running a body in `Except` and restoring
the original state on error, and decimal quantities are modelled as `Nat`
fixed-point units (the source stores decimals with five decimal places; only
ordering and comparison matter here).
-/

namespace Kit

/-- Modelled from the spec: a Part catalog entry (`part/models.py` is not in the
source tree).  `subscribers` is the list of user ids returned by
`Part.get_subscribers()` ("a subscriber lookup on Part"). -/
structure Part where
  id : Nat
  subscribers : List Nat
deriving DecidableEq

/-- Modelled from the spec: the parent Build order (`build/models.py` is not in
the source tree); only the fields read by the kit engine are kept
(`build.part`, `build.pk`, and the notification targets `issued_by` and
`responsible`, modelled as optional user ids). -/
structure Build where
  pk : Nat
  part : Part
  issued_by : Option Nat
  responsible : Option Nat
deriving DecidableEq

/-- Modelled from the spec: a stock record ("a quantity-bearing inventory unit
of a specific part"; `stock/models.py` is not in the source tree).  `in_stock`
models membership in `StockItem.IN_STOCK_FILTER` ("in-stock status");
`belongs_to` is the ownership pointer updated on installation. -/
structure StockItem where
  id : Nat
  part : Part
  quantity : Nat
  creation_date : Nat
  in_stock : Bool
  belongs_to : Option Nat
deriving DecidableEq

/-- Modelled from the spec: the stock history reason codes used by the kit
engine (`stock/status_codes.py` is not in the source tree): "kit allocation"
and "component installed". -/
inductive HistoryCode where
  | KIT_ALLOCATION
  | KIT_COMPONENT_INSTALLED
deriving DecidableEq

/-- Modelled from the spec: one audit entry written by
`StockItem.add_tracking_entry` ("reason code + actor + structured delta payload
`\x7bkit: kit_id, kit_item: kit_item_id\x7d`"). -/
structure TrackingEntry where
  stock_item : Nat
  code : HistoryCode
  user : Option Nat
  kit : Nat
  kit_item : Nat
deriving DecidableEq

/-- The database state visible to the kit engine: the stock ledger and the
stock tracking (audit) entries. -/
structure DBState where
  stock_items : List StockItem
  tracking : List TrackingEntry
deriving DecidableEq

/-- Modelled from the spec: appending a tracking entry via
`StockItem.add_tracking_entry`. -/
def add_tracking_entry (s : DBState) (e : TrackingEntry) : DBState :=
  { s with tracking := s.tracking ++ [e] }

/-- A BOM line: "assembly part P requires quantity Q of sub-part S".  Only the
two part links are needed by the kit engine (`part/models.py` is not in the
source tree; fields per the spec glossary). -/
structure BomItem where
  part : Part
  sub_part : Part
deriving DecidableEq

/-- Status codes for the KitBuild model (`KitStatus.PENDING`). -/
def KitStatus.PENDING : Nat := 10

/-- Status codes for the KitBuild model (`KitStatus.IN_PROGRESS`). -/
def KitStatus.IN_PROGRESS : Nat := 20

/-- Status codes for the KitBuild model (`KitStatus.COMPLETE`). -/
def KitStatus.COMPLETE : Nat := 30

/-- Status codes for the KitBuild model (`KitStatus.CANCELLED`). -/
def KitStatus.CANCELLED : Nat := 40

/-- `KitStatus.items()`: all available status codes. -/
def KitStatus.items : List (Nat × String) :=
  [(KitStatus.PENDING, "Pending"), (KitStatus.IN_PROGRESS, "In Progress"),
   (KitStatus.COMPLETE, "Complete"), (KitStatus.CANCELLED, "Cancelled")]

/-- `KitStatus.text(code)`: text value for the specified status code. -/
def KitStatus.text (code : Nat) : String :=
  match KitStatus.items.find? (fun p => p.1 == code) with
  | some p => p.2
  | none => ""

/-- The `KitBuild` model row.  `id` is `none` until the row is persisted;
`part` is `none` while unset in memory (the column itself is non-null); the
remaining fields mirror the model fields used by the specified behaviour. -/
structure KitBuild where
  id : Option Nat
  reference : String
  build : Build
  part : Option Part
  quantity : Nat
  status : Nat
  completion_date : Option Nat
  completed_by : Option Nat
deriving DecidableEq

/-- Context for `KitBuild.save`: the global integer counter read by
`generate_next_int` and the next database autoincrement row id. -/
structure SaveCtx where
  next_int : Nat
  next_id : Nat
deriving DecidableEq

/-- Modelled from the spec: `InvenTree.helpers.generate_next_int` (`helpers.py`
is not in the source tree) draws the next value from a global mutable integer
counter (spec section 9: "global mutable counter"). -/
def generate_next_int (ctx : SaveCtx) : Nat × SaveCtx :=
  (ctx.next_int, { ctx with next_int := ctx.next_int + 1 })

/-- `KitBuild.save`: if `reference` is empty it is generated as
`KIT-<id>` when the row already has an id, and otherwise (first save, no id
yet) as `KIT-<generate_next_int()>`; an unset `part` is filled from
`build.part`; finally `super().save()` persists the row, assigning a fresh row
id to a new row.  Note that this method performs no call to `clean`. -/
def KitBuild.save (k : KitBuild) (ctx : SaveCtx) : KitBuild × SaveCtx :=
  let refCtx : String × SaveCtx :=
    if k.reference = "" then
      match k.id with
      | some i => ("KIT-" ++ toString i, ctx)
      | none =>
        let n := generate_next_int ctx
        ("KIT-" ++ toString n.1, n.2)
    else (k.reference, ctx)
  let part2 : Option Part := if k.part.isNone then some k.build.part else k.part
  let idCtx : Option Nat × SaveCtx :=
    match k.id with
    | some i => (some i, refCtx.2)
    | none => (some refCtx.2.next_id, { refCtx.2 with next_id := refCtx.2.next_id + 1 })
  ({ k with reference := refCtx.1, part := part2, id := idCtx.1 }, idCtx.2)

/-- `KitBuild.clean`: raises a `ValidationError` on the field `part` when the
kit's part differs from the build's part (`build` is a non-null foreign key,
so the `if self.build` guard always passes). -/
def KitBuild.clean (k : KitBuild) : Except String Unit :=
  if k.part ≠ some k.build.part then Except.error "part" else Except.ok ()

/-- `KitBuild.is_complete`: true if this kit is complete. -/
def KitBuild.is_complete (k : KitBuild) : Bool :=
  k.status == KitStatus.COMPLETE

/-- The `KitItem` model row.  `bom_item` is optional in memory (the code
guards `if not self.bom_item`); `stock_item` and `install_into` are nullable
links to stock records, held by id. -/
structure KitItem where
  pk : Nat
  bom_item : Option BomItem
  stock_item : Option Nat
  install_into : Option Nat
  quantity : Nat
  completed : Bool
deriving DecidableEq

/-- `KitItem.clean`: raises a `ValidationError` on the field `bom_item` when a
BOM line is present and its assembly part differs from the kit's part. -/
def KitItem.clean (k : KitBuild) (it : KitItem) : Except String Unit :=
  match it.bom_item with
  | some b => if k.part ≠ some b.part then Except.error "bom_item" else Except.ok ()
  | none => Except.ok ()

/-- `KitItem.save`: calls `self.clean()` and then persists; on a validation
error nothing is persisted. -/
def KitItem.save (k : KitBuild) (it : KitItem) : Except String KitItem :=
  match KitItem.clean k it with
  | Except.error e => Except.error e
  | Except.ok _ => Except.ok it

/-- `KitItem.part`: the component part, derived as `bom_item.sub_part`. -/
def KitItem.part (it : KitItem) : Option Part :=
  it.bom_item.map BomItem.sub_part

/-- `KitItem.is_allocated`: true if this kit item has stock allocated
(`stock_item is not None`). -/
def KitItem.is_allocated (it : KitItem) : Bool :=
  it.stock_item.isSome

/-- `KitItem.is_complete`: true if this kit item is complete
(`completed is True`). -/
def KitItem.is_complete (it : KitItem) : Bool :=
  it.completed

/-- Result of `KitItem.allocate`: the method returns nothing (`None`) from the
`if not self.bom_item` guard, `False` when no suitable stock is found, and
`True` on a successful allocation. -/
inductive AllocResult where
  | none_guard
  | failed
  | ok
deriving DecidableEq

/-- The candidate query inside `KitItem.allocate`: stock records whose part is
`bom_item.sub_part`, with `quantity__gte` the required quantity, filtered by
`IN_STOCK_FILTER`. -/
def stock_candidates (s : DBState) (sub_part : Part) (required : Nat) : List StockItem :=
  s.stock_items.filter
    (fun si => decide (si.part = sub_part ∧ required ≤ si.quantity ∧ si.in_stock = true))

/-- The `order_by(creation_date)` / `first()` pick inside `KitItem.allocate`:
the earliest-created element of the list (first in query order among ties). -/
def first_by_creation_date : List StockItem → Option StockItem
  | [] => none
  | si :: rest =>
    match first_by_creation_date rest with
    | none => some si
    | some sj => if si.creation_date ≤ sj.creation_date then some si else some sj

/-- `KitItem.allocate(user, stock_item)`: allocate stock to this kit item.
With no BOM line the method is a guard no-op; with no explicit `stock_item` it
auto-selects the oldest in-stock candidate of the required sub-part and
quantity, returning `False` (and mutating nothing) when none exists; on a pick
it assigns `stock_item`, saves (which validates via `clean`), and writes a
`KIT_ALLOCATION` tracking entry.  The method is `transaction.atomic`: an
`Except.error` carries no mutated state. -/
def KitItem.allocate (k : KitBuild) (s : DBState) (it : KitItem) (user : Option Nat)
    (stock_item : Option Nat) : Except String (DBState × KitItem × AllocResult) :=
  match it.bom_item with
  | none => Except.ok (s, it, AllocResult.none_guard)
  | some b =>
    let chosen : Option Nat :=
      match stock_item with
      | some si => some si
      | none =>
        (first_by_creation_date (stock_candidates s b.sub_part it.quantity)).map StockItem.id
    match chosen with
    | none => Except.ok (s, it, AllocResult.failed)
    | some si =>
      match KitItem.save k { it with stock_item := some si } with
      | Except.error e => Except.error e
      | Except.ok it2 =>
        let s2 := add_tracking_entry s
          { stock_item := si, code := HistoryCode.KIT_ALLOCATION, user := user,
            kit := k.id.getD 0, kit_item := it.pk }
        Except.ok (s2, it2, AllocResult.ok)

/-- `KitItem.complete_allocation(user)`: returns `False` with no mutation when
no stock item is assigned; otherwise marks the item completed, saves, writes a
`KIT_COMPONENT_INSTALLED` tracking entry, and, when `install_into` is set,
repoints the allocated stock record's `belongs_to` at the destination. -/
def KitItem.complete_allocation (k : KitBuild) (s : DBState) (it : KitItem)
    (user : Option Nat) : Except String (DBState × KitItem × Bool) :=
  match it.stock_item with
  | none => Except.ok (s, it, false)
  | some si =>
    match KitItem.save k { it with completed := true } with
    | Except.error e => Except.error e
    | Except.ok it2 =>
      let s2 := add_tracking_entry s
        { stock_item := si, code := HistoryCode.KIT_COMPONENT_INSTALLED, user := user,
          kit := k.id.getD 0, kit_item := it.pk }
      let s3 : DBState :=
        match it2.install_into with
        | some dest =>
          let updated := s2.stock_items.map
            (fun x => if x.id = si then { x with belongs_to := some dest } else x)
          { s2 with stock_items := updated }
        | none => s2
      Except.ok (s3, it2, true)

/-- The loop body of `KitBuild.allocate_stock`: for each item, if
`item.stock_item and not item.is_allocated` then call `item.allocate(user)`.
Besides the updated state and items, the list of item pks on which `allocate`
was invoked is returned, so the sweep's call pattern can be observed. -/
def allocate_stock_go (k : KitBuild) (user : Option Nat) :
    DBState → List KitItem → Except String (DBState × List KitItem × List Nat)
  | s, [] => Except.ok (s, [], [])
  | s, it :: rest =>
    if it.stock_item.isSome && !(KitItem.is_allocated it) then
      match KitItem.allocate k s it user none with
      | Except.error e => Except.error e
      | Except.ok (s2, it2, _) =>
        match allocate_stock_go k user s2 rest with
        | Except.error e => Except.error e
        | Except.ok (s3, rest2, calls) => Except.ok (s3, it2 :: rest2, it.pk :: calls)
    else
      match allocate_stock_go k user s rest with
      | Except.error e => Except.error e
      | Except.ok (s3, rest2, calls) => Except.ok (s3, it :: rest2, calls)

/-- `KitBuild.allocate_stock(user)`: allocate stock to this kit, sweeping all
items.  The method is `transaction.atomic`: on an exception the database state
rolls back to the initial one. -/
def KitBuild.allocate_stock (k : KitBuild) (s : DBState) (items : List KitItem)
    (user : Option Nat) : DBState × List KitItem × List Nat :=
  match allocate_stock_go k user s items with
  | Except.ok r => r
  | Except.error _ => (s, items, [])

/-- The loop body of `KitBuild.complete_allocation`: the queryset filters
`stock_item__isnull=False`, and each such item is completed unless
`item.is_complete` already holds.  The list of item pks on which
`complete_allocation` was invoked is also returned. -/
def complete_allocation_go (k : KitBuild) (user : Option Nat) :
    DBState → List KitItem → Except String (DBState × List KitItem × List Nat)
  | s, [] => Except.ok (s, [], [])
  | s, it :: rest =>
    if it.stock_item.isSome && !(KitItem.is_complete it) then
      match KitItem.complete_allocation k s it user with
      | Except.error e => Except.error e
      | Except.ok (s2, it2, _) =>
        match complete_allocation_go k user s2 rest with
        | Except.error e => Except.error e
        | Except.ok (s3, rest2, calls) => Except.ok (s3, it2 :: rest2, it.pk :: calls)
    else
      match complete_allocation_go k user s rest with
      | Except.error e => Except.error e
      | Except.ok (s3, rest2, calls) => Except.ok (s3, it :: rest2, calls)

/-- `KitBuild.complete_allocation(user)`: complete allocation for this kit,
for all items that have stock allocated; `transaction.atomic`, so the state
rolls back on an exception. -/
def KitBuild.complete_allocation (k : KitBuild) (s : DBState) (items : List KitItem)
    (user : Option Nat) : DBState × List KitItem × List Nat :=
  match complete_allocation_go k user s items with
  | Except.ok r => r
  | Except.error _ => (s, items, [])

/-- The `kit.completed` event payload emitted via `trigger_event`
(`id=self.pk, build_id=self.build.pk`). -/
structure KitEvent where
  kit_id : Nat
  build_id : Nat
deriving DecidableEq

/-- A dispatched notification, reduced to the fields the spec talks about: the
category slug, the object reference, and the resolved target users. -/
structure Notification where
  slug : String
  obj : Nat
  target_users : List Nat
deriving DecidableEq

/-- Target resolution of `trigger_notification` (common/notifications.py,
the `for target in targets` loop) restricted to plain user targets: `None`
entries are skipped, and a user is added only when it is not in
`target_exclude`.  The source collects a Python set; the list here is read up
to membership. -/
def resolve_targets (targets : List (Option Nat)) (target_exclude : List Nat) : List Nat :=
  (targets.filterMap id).filter (fun u => decide (u ∉ target_exclude))

/-- Context for `KitBuild.complete`: the current date, and one flag per
collaborator step that may raise (`trigger_event`, the target computation via
`Part.get_subscribers`, and `trigger_notification`); a `false` flag models
that step raising an exception. -/
structure CompleteCtx where
  today : Nat
  event_ok : Bool
  targets_ok : Bool
  notify_ok : Bool
deriving DecidableEq

/-- The step of `KitBuild.complete` at which an exception was raised. -/
inductive CompleteStep where
  | event
  | targets
  | notify
deriving DecidableEq

/-- The body of `KitBuild.complete(user)` in source order: set
`completion_date`, `completed_by` and `status = COMPLETE`; `self.save()`;
`trigger_event(KIT_COMPLETED, id, build_id)`; compute the notification targets
`[build.issued_by, build.responsible] + part.get_subscribers()`; dispatch the
`kit.completed` notification with `target_exclude=[user]`. -/
def KitBuild.complete_go (k : KitBuild) (user : Nat) (ctx : CompleteCtx) (sctx : SaveCtx) :
    Except CompleteStep (KitBuild × SaveCtx × KitEvent × Notification) :=
  let k1 : KitBuild :=
    { k with completion_date := some ctx.today, completed_by := some user,
             status := KitStatus.COMPLETE }
  let saved := KitBuild.save k1 sctx
  if !ctx.event_ok then Except.error CompleteStep.event else
  let ev : KitEvent := { kit_id := (saved.1).id.getD 0, build_id := k.build.pk }
  if !ctx.targets_ok then Except.error CompleteStep.targets else
  let targets : List (Option Nat) :=
    [k.build.issued_by, k.build.responsible] ++
      (((saved.1).part.map Part.subscribers).getD []).map some
  if !ctx.notify_ok then Except.error CompleteStep.notify else
  let n : Notification :=
    { slug := "kit.completed", obj := (saved.1).id.getD 0,
      target_users := resolve_targets targets [user] }
  Except.ok (saved.1, saved.2, ev, n)

/-- `KitBuild.complete(user)`: the body above under `transaction.atomic` — if
any step after the status write raises, the kit row (and its field mutations)
is rolled back to the pre-call state and nothing is dispatched. -/
def KitBuild.complete (k : KitBuild) (user : Nat) (ctx : CompleteCtx) (sctx : SaveCtx) :
    KitBuild × SaveCtx × Option (KitEvent × Notification) :=
  match KitBuild.complete_go k user ctx sctx with
  | Except.ok (k2, sctx2, ev, n) => (k2, sctx2, some (ev, n))
  | Except.error _ => (k, sctx, none)

/-! Helper lemmas about the auto-selection of stock and the two sweeps. -/

lemma first_by_creation_date_eq_none : ∀ {l : List StockItem},
    first_by_creation_date l = none ↔ l = []
  | [] => by simp [first_by_creation_date]
  | si :: rest => by
    rw [first_by_creation_date]
    cases h : first_by_creation_date rest with
    | none => simp
    | some sj =>
      by_cases hle : si.creation_date ≤ sj.creation_date <;> simp [hle]

lemma first_by_creation_date_mem : ∀ {l : List StockItem} {x : StockItem},
    first_by_creation_date l = some x → x ∈ l
  | [], x, h => by simp [first_by_creation_date] at h
  | si :: rest, x, h => by
    rw [first_by_creation_date] at h
    cases hr : first_by_creation_date rest with
    | none =>
      rw [hr] at h
      simp only [Option.some.injEq] at h
      subst h
      exact List.mem_cons_self _ _
    | some sj =>
      rw [hr] at h
      dsimp only at h
      by_cases hle : si.creation_date ≤ sj.creation_date
      · rw [if_pos hle] at h
        simp only [Option.some.injEq] at h
        subst h
        exact List.mem_cons_self _ _
      · rw [if_neg hle] at h
        simp only [Option.some.injEq] at h
        subst h
        exact List.mem_cons_of_mem _ (first_by_creation_date_mem hr)

lemma first_by_creation_date_min : ∀ {l : List StockItem} {x : StockItem},
    first_by_creation_date l = some x → ∀ y ∈ l, x.creation_date ≤ y.creation_date
  | [], x, h => by simp [first_by_creation_date] at h
  | si :: rest, x, h => by
    rw [first_by_creation_date] at h
    cases hr : first_by_creation_date rest with
    | none =>
      rw [hr] at h
      simp only [Option.some.injEq] at h
      subst h
      have : rest = [] := first_by_creation_date_eq_none.mp hr
      subst this
      intro y hy
      simp only [List.mem_singleton] at hy
      subst hy
      exact le_refl _
    | some sj =>
      rw [hr] at h
      have hmin := first_by_creation_date_min hr
      dsimp only at h
      by_cases hle : si.creation_date ≤ sj.creation_date
      · rw [if_pos hle] at h
        simp only [Option.some.injEq] at h
        subst h
        intro y hy
        rcases List.mem_cons.mp hy with hy | hy
        · subst hy; exact le_refl _
        · exact le_trans hle (hmin y hy)
      · rw [if_neg hle] at h
        simp only [Option.some.injEq] at h
        subst h
        intro y hy
        rcases List.mem_cons.mp hy with hy | hy
        · subst hy; exact le_of_lt (lt_of_not_le hle)
        · exact hmin y hy

lemma allocate_stock_guard_false (it : KitItem) :
    (it.stock_item.isSome && !(KitItem.is_allocated it)) = false := by
  unfold KitItem.is_allocated
  cases it.stock_item <;> simp

lemma allocate_stock_go_eq (k : KitBuild) (user : Option Nat) :
    ∀ (items : List KitItem) (s : DBState),
      allocate_stock_go k user s items = Except.ok (s, items, []) := by
  intro items
  induction items with
  | nil => intro s; rfl
  | cons it rest ih =>
    intro s
    rw [allocate_stock_go, allocate_stock_guard_false it]
    simp only [Bool.false_eq_true, if_false, ih s]

lemma allocate_stock_eq (k : KitBuild) (s : DBState) (items : List KitItem)
    (user : Option Nat) : KitBuild.allocate_stock k s items user = (s, items, []) := by
  unfold KitBuild.allocate_stock
  rw [allocate_stock_go_eq]

lemma kititem_save_ok_eq {k : KitBuild} {it it2 : KitItem}
    (h : KitItem.save k it = Except.ok it2) : it2 = it := by
  unfold KitItem.save at h
  cases hc : KitItem.clean k it with
  | error e => rw [hc] at h; exact absurd h (by simp)
  | ok u => rw [hc] at h; simpa using h.symm

lemma complete_allocation_ok_shape {k : KitBuild} {s : DBState} {user : Option Nat}
    {s2 : DBState} {it2 : KitItem} {b : Bool} :
    ∀ {it : KitItem}, KitItem.complete_allocation k s it user = Except.ok (s2, it2, b) →
      (it.stock_item = none ∧ s2 = s ∧ it2 = it ∧ b = false) ∨
        (it2 = { it with completed := true } ∧ b = true)
  | ⟨pk, bom, none, inst, q, c⟩, h => by
    unfold KitItem.complete_allocation at h
    simp only [Except.ok.injEq, Prod.mk.injEq] at h
    exact Or.inl ⟨rfl, h.1.symm, h.2.1.symm, h.2.2.symm⟩
  | ⟨pk, bom, some si, inst, q, c⟩, h => by
    unfold KitItem.complete_allocation at h
    dsimp only at h
    cases hsv : KitItem.save k ⟨pk, bom, some si, inst, q, true⟩ with
    | error e => rw [hsv] at h; exact absurd h (by simp)
    | ok it3 =>
      rw [hsv] at h
      have hit3 := kititem_save_ok_eq hsv
      subst hit3
      dsimp only at h
      refine Or.inr ?_
      cases inst with
      | none =>
        simp only [Except.ok.injEq, Prod.mk.injEq] at h
        exact ⟨h.2.1.symm, h.2.2.symm⟩
      | some dest =>
        simp only [Except.ok.injEq, Prod.mk.injEq] at h
        exact ⟨h.2.1.symm, h.2.2.symm⟩

lemma complete_allocation_go_post (k : KitBuild) (user : Option Nat) :
    ∀ (items : List KitItem) (s s2 : DBState) (items2 : List KitItem) (calls : List Nat),
      complete_allocation_go k user s items = Except.ok (s2, items2, calls) →
      ∀ it2 ∈ items2, it2.stock_item.isSome = true → it2.completed = true := by
  intro items
  induction items with
  | nil =>
    intro s s2 items2 calls h it2 hmem
    rw [complete_allocation_go] at h
    simp only [Except.ok.injEq, Prod.mk.injEq] at h
    rw [← h.2.1] at hmem
    exact absurd hmem (List.not_mem_nil _)
  | cons it rest ih =>
    intro s s2 items2 calls h it2 hmem hsome
    rw [complete_allocation_go] at h
    by_cases hg : (it.stock_item.isSome && !(KitItem.is_complete it)) = true
    · rw [if_pos hg] at h
      cases hone : KitItem.complete_allocation k s it user with
      | error e => rw [hone] at h; exact absurd h (by simp)
      | ok trip =>
        obtain ⟨s2x, it2x, bx⟩ := trip
        rw [hone] at h
        dsimp only at h
        cases hrec : complete_allocation_go k user s2x rest with
        | error e => rw [hrec] at h; exact absurd h (by simp)
        | ok trip2 =>
          obtain ⟨s3, rest2, calls2⟩ := trip2
          rw [hrec] at h
          simp only [Except.ok.injEq, Prod.mk.injEq] at h
          rw [← h.2.1] at hmem
          rcases List.mem_cons.mp hmem with hx | hx
          · subst hx
            rcases complete_allocation_ok_shape hone with ⟨hnone, -, -, -⟩ | ⟨hshape, -⟩
            · rw [hnone] at hg; simp at hg
            · rw [hshape]
          · exact ih s2x s3 rest2 calls2 hrec it2 hx hsome
    · rw [if_neg hg] at h
      cases hrec : complete_allocation_go k user s rest with
      | error e => rw [hrec] at h; exact absurd h (by simp)
      | ok trip2 =>
        obtain ⟨s3, rest2, calls2⟩ := trip2
        rw [hrec] at h
        simp only [Except.ok.injEq, Prod.mk.injEq] at h
        rw [← h.2.1] at hmem
        rcases List.mem_cons.mp hmem with hx | hx
        · subst hx
          simp only [Bool.and_eq_true, Bool.not_eq_true', not_and, Bool.not_eq_false] at hg
          exact hg hsome
        · exact ih s s3 rest2 calls2 hrec it2 hx hsome

lemma complete_allocation_go_fixed (k : KitBuild) (user : Option Nat) :
    ∀ (items : List KitItem) (s : DBState),
      (∀ it ∈ items, it.stock_item.isSome = true → it.completed = true) →
      complete_allocation_go k user s items = Except.ok (s, items, []) := by
  intro items
  induction items with
  | nil => intro s _; rfl
  | cons it rest ih =>
    intro s hinv
    have hg : (it.stock_item.isSome && !(KitItem.is_complete it)) = false := by
      unfold KitItem.is_complete
      cases hst : it.stock_item with
      | none => simp
      | some si =>
        have := hinv it (List.mem_cons_self _ _) (by rw [hst]; rfl)
        simp [this]
    rw [complete_allocation_go, hg]
    simp only [Bool.false_eq_true, if_false]
    rw [ih s (fun x hx => hinv x (List.mem_cons_of_mem _ hx))]

lemma complete_allocation_go_calls (k : KitBuild) (user : Option Nat) :
    ∀ (items : List KitItem) (s s2 : DBState) (items2 : List KitItem) (calls : List Nat),
      complete_allocation_go k user s items = Except.ok (s2, items2, calls) →
      ∀ pk ∈ calls, ∃ it ∈ items,
        it.pk = pk ∧ it.stock_item.isSome = true ∧ it.completed = false := by
  intro items
  induction items with
  | nil =>
    intro s s2 items2 calls h pk hpk
    rw [complete_allocation_go] at h
    simp only [Except.ok.injEq, Prod.mk.injEq] at h
    rw [← h.2.2] at hpk
    exact absurd hpk (List.not_mem_nil _)
  | cons it rest ih =>
    intro s s2 items2 calls h pk hpk
    rw [complete_allocation_go] at h
    by_cases hg : (it.stock_item.isSome && !(KitItem.is_complete it)) = true
    · rw [if_pos hg] at h
      cases hone : KitItem.complete_allocation k s it user with
      | error e => rw [hone] at h; exact absurd h (by simp)
      | ok trip =>
        obtain ⟨s2x, it2x, bx⟩ := trip
        rw [hone] at h
        dsimp only at h
        cases hrec : complete_allocation_go k user s2x rest with
        | error e => rw [hrec] at h; exact absurd h (by simp)
        | ok trip2 =>
          obtain ⟨s3, rest2, calls2⟩ := trip2
          rw [hrec] at h
          simp only [Except.ok.injEq, Prod.mk.injEq] at h
          rw [← h.2.2] at hpk
          simp only [Bool.and_eq_true, Bool.not_eq_true'] at hg
          rcases List.mem_cons.mp hpk with hx | hx
          · exact ⟨it, List.mem_cons_self _ _, hx.symm, hg.1, hg.2⟩
          · obtain ⟨it0, hmem0, hrest⟩ := ih s2x s3 rest2 calls2 hrec pk hx
            exact ⟨it0, List.mem_cons_of_mem _ hmem0, hrest⟩
    · rw [if_neg hg] at h
      cases hrec : complete_allocation_go k user s rest with
      | error e => rw [hrec] at h; exact absurd h (by simp)
      | ok trip2 =>
        obtain ⟨s3, rest2, calls2⟩ := trip2
        rw [hrec] at h
        simp only [Except.ok.injEq, Prod.mk.injEq] at h
        rw [← h.2.2] at hpk
        obtain ⟨it0, hmem0, hrest⟩ := ih s s3 rest2 calls2 hrec pk hpk
        exact ⟨it0, List.mem_cons_of_mem _ hmem0, hrest⟩

lemma mem_stock_candidates {s : DBState} {sub : Part} {req : Nat} {si : StockItem} :
    si ∈ stock_candidates s sub req ↔
      si ∈ s.stock_items ∧ si.part = sub ∧ req ≤ si.quantity ∧ si.in_stock = true := by
  simp [stock_candidates, List.mem_filter]

/-! The claim theorems. -/

/-- C1: `allocate_stock(user)` invokes `allocate(user)` on exactly the kit
items that have a `stock_item` assigned but are not yet `is_allocated` (the
code's guard `item.stock_item and not item.is_allocated`; since `is_allocated`
holds precisely when a `stock_item` is assigned, no item satisfies it), and
every kit item with no `stock_item` assigned is skipped silently: it is never
passed to `allocate`, it is left unchanged, and the sweep raises no error. -/
theorem allocate_stock_sweep_spec (k : KitBuild) (s : DBState) (items : List KitItem)
    (user : Option Nat) :
    (∀ it ∈ items, it.stock_item.isSome = true ∧ KitItem.is_allocated it = false →
        it.pk ∈ (KitBuild.allocate_stock k s items user).2.2)
    ∧ (∀ it ∈ items, it.stock_item = none →
        it.pk ∉ (KitBuild.allocate_stock k s items user).2.2 ∧
          it ∈ (KitBuild.allocate_stock k s items user).2.1)
    ∧ allocate_stock_go k user s items =
        Except.ok (KitBuild.allocate_stock k s items user) := by
  rw [allocate_stock_eq]
  refine ⟨?_, ?_, ?_⟩
  · intro it _ hcontra
    unfold KitItem.is_allocated at hcontra
    rw [hcontra.1] at hcontra
    exact absurd hcontra.2 (by simp)
  · intro it hmem _
    exact ⟨List.not_mem_nil _, hmem⟩
  · rw [allocate_stock_go_eq]

theorem allocate_stock_sweep_spec_witness :
    (⟨3, none, none, none, 1, false⟩ : KitItem).pk ∉
      (KitBuild.allocate_stock
        ⟨some 1, "KIT-1", ⟨1, ⟨1, []⟩, none, none⟩, some ⟨1, []⟩, 1, 10, none, none⟩
        ⟨[], []⟩ [⟨3, none, none, none, 1, false⟩] none).2.2 ∧
    (⟨3, none, none, none, 1, false⟩ : KitItem) ∈
      (KitBuild.allocate_stock
        ⟨some 1, "KIT-1", ⟨1, ⟨1, []⟩, none, none⟩, some ⟨1, []⟩, 1, 10, none, none⟩
        ⟨[], []⟩ [⟨3, none, none, none, 1, false⟩] none).2.1 :=
  (allocate_stock_sweep_spec
    ⟨some 1, "KIT-1", ⟨1, ⟨1, []⟩, none, none⟩, some ⟨1, []⟩, 1, 10, none, none⟩
    ⟨[], []⟩ [⟨3, none, none, none, 1, false⟩] none).2.1
    ⟨3, none, none, none, 1, false⟩ (by simp) rfl

/-- Concrete kit used for the C2 counterexample: its explicit `part` (id 2)
differs from its build's part (id 1). -/
def c2_kit : KitBuild :=
  ⟨some 1, "KIT-1", ⟨1, ⟨1, []⟩, none, none⟩, some ⟨2, []⟩, 1, KitStatus.PENDING, none, none⟩

/-- C2 counterexample: `KitBuild.save` performs no validation call, so saving a
kit whose explicit part differs from its build's part succeeds and persists the
mismatch, even though `KitBuild.clean` would have rejected exactly this kit.
(`KitItem.save` calls `self.clean()` explicitly; `KitBuild.save` does not.) -/
theorem save_mismatched_part_persists :
    (KitBuild.save c2_kit ⟨5, 5⟩).1.part ≠ some (KitBuild.save c2_kit ⟨5, 5⟩).1.build.part ∧
    KitBuild.clean c2_kit = Except.error "part" := by
  constructor
  · decide
  · rfl

/-- C2 amended: `clean()` accepts a kit exactly when `kit.part == build.part`,
and `save()` fills an unset `part` from `build.part` (so a kit saved with no
explicit part satisfies the invariant) while leaving an explicitly set part
untouched — `save()` itself never invokes `clean()`, so an explicit mismatch
is persisted rather than rejected. -/
theorem clean_and_save_part_spec (k : KitBuild) (ctx : SaveCtx) :
    (k.part = none → (KitBuild.save k ctx).1.part = some k.build.part)
    ∧ (k.part ≠ none → (KitBuild.save k ctx).1.part = k.part)
    ∧ (KitBuild.clean k = Except.ok () ↔ k.part = some k.build.part) := by
  refine ⟨?_, ?_, ?_⟩
  · intro h
    simp [KitBuild.save, h]
  · intro h
    simp [KitBuild.save, Option.isNone_iff_eq_none, h]
  · unfold KitBuild.clean
    by_cases h : k.part = some k.build.part <;> simp [h]

theorem clean_and_save_part_spec_witness :
    ((c2_kit.part = none → (KitBuild.save c2_kit ⟨5, 5⟩).1.part = some c2_kit.build.part)
    ∧ (c2_kit.part ≠ none → (KitBuild.save c2_kit ⟨5, 5⟩).1.part = c2_kit.part)
    ∧ (KitBuild.clean c2_kit = Except.ok () ↔ c2_kit.part = some c2_kit.build.part)) :=
  clean_and_save_part_spec c2_kit ⟨5, 5⟩

/-- C3: a `KitItem` save only succeeds when the BOM line's assembly part is
the kit's part (so the invariant holds of every successfully saved row), and
saving a kit item whose BOM line belongs to a different assembly raises a
validation error on `bom_item`, persisting nothing. -/
theorem kititem_save_part_invariant (k : KitBuild) (it : KitItem) :
    (∀ it2, KitItem.save k it = Except.ok it2 →
        ∀ b, it2.bom_item = some b → k.part = some b.part)
    ∧ (∀ b, it.bom_item = some b → k.part ≠ some b.part →
        KitItem.save k it = Except.error "bom_item") := by
  constructor
  · intro it2 hsave b hbom
    have heq := kititem_save_ok_eq hsave
    subst heq
    unfold KitItem.save KitItem.clean at hsave
    rw [hbom] at hsave
    by_cases hp : k.part = some b.part
    · exact hp
    · simp [hp] at hsave
  · intro b hbom hne
    unfold KitItem.save KitItem.clean
    rw [hbom]
    simp [hne]

theorem kititem_save_part_invariant_witness :
    (⟨some 1, "KIT-1", ⟨1, ⟨1, []⟩, none, none⟩, some ⟨1, []⟩, 1, 10, none,
        none⟩ : KitBuild).part ≠ some (⟨⟨2, []⟩, ⟨10, []⟩⟩ : BomItem).part ∧
    KitItem.save ⟨some 1, "KIT-1", ⟨1, ⟨1, []⟩, none, none⟩, some ⟨1, []⟩, 1, 10, none, none⟩
        ⟨3, some ⟨⟨2, []⟩, ⟨10, []⟩⟩, none, none, 1, false⟩ = Except.error "bom_item" :=
  ⟨by decide,
    (kititem_save_part_invariant
      ⟨some 1, "KIT-1", ⟨1, ⟨1, []⟩, none, none⟩, some ⟨1, []⟩, 1, 10, none, none⟩
      ⟨3, some ⟨⟨2, []⟩, ⟨10, []⟩⟩, none, none, 1, false⟩).2
      ⟨⟨2, []⟩, ⟨10, []⟩⟩ rfl (by decide)⟩

/-- C5: `complete_allocation()` on a kit item with no `stock_item` assigned
returns `False`, raises no exception, and performs no mutation: the state and
the item (in particular its `completed` flag) are returned unchanged, and no
tracking entry is written. -/
theorem complete_allocation_requires_stock (k : KitBuild) (s : DBState) (it : KitItem)
    (user : Option Nat) (h : it.stock_item = none) :
    KitItem.complete_allocation k s it user = Except.ok (s, it, false) := by
  unfold KitItem.complete_allocation
  rw [h]

theorem complete_allocation_requires_stock_witness :
    (⟨3, none, none, none, 1, false⟩ : KitItem).stock_item = none ∧
    KitItem.complete_allocation
        ⟨some 1, "KIT-1", ⟨1, ⟨1, []⟩, none, none⟩, some ⟨1, []⟩, 1, 10, none, none⟩
        ⟨[], []⟩ ⟨3, none, none, none, 1, false⟩ none =
      Except.ok (⟨[], []⟩, ⟨3, none, none, none, 1, false⟩, false) :=
  ⟨rfl, complete_allocation_requires_stock
    ⟨some 1, "KIT-1", ⟨1, ⟨1, []⟩, none, none⟩, some ⟨1, []⟩, 1, 10, none, none⟩
    ⟨[], []⟩ ⟨3, none, none, none, 1, false⟩ none rfl⟩

/-- Concrete unsaved kit for the C8 counterexample: no id yet, no caller
reference, saved while the global counter holds 7 and the next row id is 3. -/
def c8_kit : KitBuild :=
  ⟨none, "", ⟨1, ⟨1, []⟩, none, none⟩, some ⟨1, []⟩, 1, KitStatus.PENDING, none, none⟩

/-- C8 counterexample: on a first save (`id` not yet assigned) the reference is
generated from the global `generate_next_int()` counter, not from the persisted
row id: here the counter holds 7, the save assigns row id 3, and the resulting
reference is `KIT-7`, not `KIT-3`. -/
theorem first_save_reference_counter :
    (KitBuild.save c8_kit ⟨7, 3⟩).1.reference = "KIT-7" ∧
    (KitBuild.save c8_kit ⟨7, 3⟩).1.id = some 3 ∧
    ("KIT-7" : String) ≠ "KIT-3" := by
  refine ⟨rfl, rfl, by decide⟩

/-- C8 amended: when a kit is saved without a caller-supplied reference, the
reference is `KIT-<id>` only when the kit already has a persisted row id; on a
first save (no id yet) the reference is `KIT-<n>` where `n` is drawn from the
global next-integer counter, and the row id assigned by that save is
independent of `n`. -/
theorem reference_generation_spec (k : KitBuild) (ctx : SaveCtx) (h : k.reference = "") :
    (∀ i, k.id = some i → (KitBuild.save k ctx).1.reference = "KIT-" ++ toString i)
    ∧ (k.id = none →
        (KitBuild.save k ctx).1.reference = "KIT-" ++ toString ctx.next_int ∧
          (KitBuild.save k ctx).1.id = some ctx.next_id) := by
  constructor
  · intro i hi
    simp [KitBuild.save, h, hi]
  · intro hi
    simp [KitBuild.save, h, hi, generate_next_int]

theorem reference_generation_spec_witness :
    c8_kit.reference = "" ∧ c8_kit.id = none ∧
    (KitBuild.save c8_kit ⟨7, 3⟩).1.reference = "KIT-" ++ toString (7 : Nat) ∧
    (KitBuild.save c8_kit ⟨7, 3⟩).1.id = some 3 :=
  ⟨rfl, rfl, (reference_generation_spec c8_kit ⟨7, 3⟩ rfl).2 rfl⟩

/-- Concrete kit for the C9 counterexample (its part matches the build part,
so item saves validate). -/
def c9_kit : KitBuild :=
  ⟨some 1, "KIT-1", ⟨1, ⟨1, []⟩, none, none⟩, some ⟨1, []⟩, 1, KitStatus.PENDING, none, none⟩

/-- Stock ledger for the C9 counterexample: two in-stock lots of part 10 with
quantity 5, the lot with id 1 created earlier (date 1) than the lot with id 2
(date 2). -/
def c9_state : DBState :=
  ⟨[⟨1, ⟨10, []⟩, 5, 1, true, none⟩, ⟨2, ⟨10, []⟩, 5, 2, true, none⟩], []⟩

/-- Kit item for the C9 counterexample: already allocated to the newer lot
(stock id 2). -/
def c9_item : KitItem :=
  ⟨7, some ⟨⟨1, []⟩, ⟨10, []⟩⟩, some 2, none, 1, false⟩

/-- C9 counterexample: invoking `allocate()` directly on an already-allocated
kit item with no explicit `stock_item` does not leave the assignment
unchanged — the method re-runs the auto-selection and reassigns the item to
the oldest suitable lot (stock id 1), replacing the existing assignment
(stock id 2). -/
theorem allocate_reassigns_existing :
    c9_item.stock_item = some 2 ∧
    (match KitItem.allocate c9_kit c9_state c9_item none none with
      | Except.ok (_, it2, _) => it2.stock_item
      | Except.error _ => none) = some 1 ∧
    (some 1 : Option Nat) ≠ c9_item.stock_item := by
  refine ⟨rfl, by decide, by decide⟩

/-- C9 amended: the kit-level `allocate_stock()` sweep never re-invokes
`allocate` on an item whose `stock_item` is already assigned (its guard
excludes every allocated item), so re-running the sweep leaves the database
state, the items, and in particular every existing assignment unchanged; a
direct `allocate()` call on such an item, by contrast, re-selects and may
change the assignment. -/
theorem sweep_preserves_assignments (k : KitBuild) (s : DBState) (items : List KitItem)
    (user : Option Nat) :
    (KitBuild.allocate_stock k s items user).1 = s ∧
    (KitBuild.allocate_stock k s items user).2.1 = items ∧
    ∀ it ∈ items, KitItem.is_allocated it = true →
      it.pk ∉ (KitBuild.allocate_stock k s items user).2.2 := by
  rw [allocate_stock_eq]
  exact ⟨rfl, rfl, fun it _ _ => List.not_mem_nil _⟩

theorem sweep_preserves_assignments_witness :
    KitItem.is_allocated c9_item = true ∧
    c9_item.pk ∉ (KitBuild.allocate_stock c9_kit c9_state [c9_item] none).2.2 :=
  ⟨rfl, (sweep_preserves_assignments c9_kit c9_state [c9_item] none).2.2 c9_item
    (by simp) rfl⟩

/-- C10: the kit-level `complete_allocation(user)` sweep invokes item
completion only on kit items that have a `stock_item` assigned and are not yet
complete, and the sweep is idempotent: running it a second time on its own
output performs no further mutation and invokes completion on no item (so no
duplicate `KIT_COMPONENT_INSTALLED` tracking entry is written). -/
theorem complete_allocation_sweep_idempotent (k : KitBuild) (s : DBState)
    (items : List KitItem) (user : Option Nat) :
    (∀ pk ∈ (KitBuild.complete_allocation k s items user).2.2,
        ∃ it ∈ items, it.pk = pk ∧ it.stock_item.isSome = true ∧ it.completed = false)
    ∧ KitBuild.complete_allocation k
        (KitBuild.complete_allocation k s items user).1
        (KitBuild.complete_allocation k s items user).2.1 user =
      ((KitBuild.complete_allocation k s items user).1,
        (KitBuild.complete_allocation k s items user).2.1, []) := by
  cases hgo : complete_allocation_go k user s items with
  | error e =>
    simp only [KitBuild.complete_allocation, hgo]
    refine ⟨fun pk hpk => absurd hpk (List.not_mem_nil _), ?_⟩
    simp only [KitBuild.complete_allocation, hgo]
  | ok trip =>
    obtain ⟨s2, items2, calls⟩ := trip
    simp only [KitBuild.complete_allocation, hgo]
    refine ⟨fun pk hpk => complete_allocation_go_calls k user items s s2 items2 calls hgo pk hpk, ?_⟩
    have hpost := complete_allocation_go_post k user items s s2 items2 calls hgo
    have hfix := complete_allocation_go_fixed k user items2 s2 hpost
    simp only [hfix]

/-- Concrete kit for the C10 witness. -/
def c10_kit : KitBuild :=
  ⟨some 2, "KIT-2", ⟨2, ⟨1, []⟩, none, none⟩, some ⟨1, []⟩, 1, KitStatus.PENDING, none, none⟩

/-- Concrete ledger for the C10 witness: one in-stock lot of part 10. -/
def c10_state : DBState := ⟨[⟨1, ⟨10, []⟩, 5, 1, true, none⟩], []⟩

/-- Concrete allocated-but-incomplete kit item for the C10 witness. -/
def c10_item : KitItem := ⟨4, some ⟨⟨1, []⟩, ⟨10, []⟩⟩, some 1, none, 1, false⟩

/-- C4: on a kit item with a BOM line, `allocate()` with no explicit stock
item auto-selects among the stock records of part `bom_item.sub_part` with
quantity at least the required quantity that are in stock; when no such
candidate exists it returns `False` (`AllocResult.failed`) and makes no
mutation, and when it succeeds the assigned record is a candidate (in
particular its quantity is at least the required quantity, so an insufficient
record is never selected regardless of age) whose creation date is no later
than that of any other candidate. -/
theorem allocate_auto_select_spec (k : KitBuild) (s : DBState) (it : KitItem)
    (user : Option Nat) (b : BomItem) (h : it.bom_item = some b) :
    (stock_candidates s b.sub_part it.quantity = [] →
        KitItem.allocate k s it user none = Except.ok (s, it, AllocResult.failed))
    ∧ ∀ s2 it2 r, KitItem.allocate k s it user none = Except.ok (s2, it2, r) →
        r = AllocResult.ok →
        ∃ si ∈ stock_candidates s b.sub_part it.quantity,
          it2.stock_item = some si.id ∧ si.part = b.sub_part ∧
          it.quantity ≤ si.quantity ∧ si.in_stock = true ∧
          ∀ sj ∈ stock_candidates s b.sub_part it.quantity,
            si.creation_date ≤ sj.creation_date := by
  constructor
  · intro hempty
    unfold KitItem.allocate
    rw [h]
    dsimp only
    rw [hempty]
    rfl
  · intro s2 it2 r hall hr
    subst hr
    unfold KitItem.allocate at hall
    rw [h] at hall
    dsimp only at hall
    cases hfb : first_by_creation_date (stock_candidates s b.sub_part it.quantity) with
    | none =>
      rw [hfb] at hall
      simp at hall
    | some si =>
      rw [hfb] at hall
      dsimp only [Option.map] at hall
      cases hsv : KitItem.save k
          ⟨it.pk, some b, some si.id, it.install_into, it.quantity, it.completed⟩ with
      | error e => rw [hsv] at hall; exact absurd hall (by simp)
      | ok it3 =>
        rw [hsv] at hall
        have hit3 := kititem_save_ok_eq hsv
        subst hit3
        dsimp only at hall
        simp only [Except.ok.injEq, Prod.mk.injEq] at hall
        have hmem := first_by_creation_date_mem hfb
        obtain ⟨-, hpart, hqty, hstk⟩ := mem_stock_candidates.mp hmem
        refine ⟨si, hmem, ?_, hpart, hqty, hstk, first_by_creation_date_min hfb⟩
        rw [← hall.2.1]

/-- Concrete kit for the C4 witness (spec scenario: 5 units of part 10
required). -/
def c4_kit : KitBuild :=
  ⟨some 1, "KIT-1", ⟨1, ⟨1, []⟩, none, none⟩, some ⟨1, []⟩, 1, KitStatus.PENDING, none, none⟩

/-- Concrete ledger for the C4 witness: a 3-unit lot created at date 1 and a
10-unit lot created at date 2, both in stock. -/
def c4_state : DBState :=
  ⟨[⟨1, ⟨10, []⟩, 3, 1, true, none⟩, ⟨2, ⟨10, []⟩, 10, 2, true, none⟩], []⟩

/-- Concrete unallocated kit item for the C4 witness, requiring 5 units. -/
def c4_item : KitItem := ⟨5, some ⟨⟨1, []⟩, ⟨10, []⟩⟩, none, none, 5, false⟩

theorem allocate_auto_select_spec_witness :
    c4_item.bom_item = some ⟨⟨1, []⟩, ⟨10, []⟩⟩ ∧
    ∃ si ∈ stock_candidates c4_state (⟨10, []⟩ : Part) c4_item.quantity,
      (⟨5, some ⟨⟨1, []⟩, ⟨10, []⟩⟩, some 2, none, 5, false⟩ : KitItem).stock_item =
          some si.id ∧
        si.part = ⟨10, []⟩ ∧ c4_item.quantity ≤ si.quantity ∧ si.in_stock = true ∧
        ∀ sj ∈ stock_candidates c4_state ⟨10, []⟩ c4_item.quantity,
          si.creation_date ≤ sj.creation_date :=
  ⟨rfl,
    (allocate_auto_select_spec c4_kit c4_state c4_item none ⟨⟨1, []⟩, ⟨10, []⟩⟩ rfl).2
      ⟨[⟨1, ⟨10, []⟩, 3, 1, true, none⟩, ⟨2, ⟨10, []⟩, 10, 2, true, none⟩],
        [⟨2, HistoryCode.KIT_ALLOCATION, none, 1, 5⟩]⟩
      ⟨5, some ⟨⟨1, []⟩, ⟨10, []⟩⟩, some 2, none, 5, false⟩
      AllocResult.ok rfl rfl⟩

theorem complete_allocation_sweep_idempotent_witness :
    KitBuild.complete_allocation c10_kit
        (KitBuild.complete_allocation c10_kit c10_state [c10_item] none).1
        (KitBuild.complete_allocation c10_kit c10_state [c10_item] none).2.1 none =
      ((KitBuild.complete_allocation c10_kit c10_state [c10_item] none).1,
        (KitBuild.complete_allocation c10_kit c10_state [c10_item] none).2.1, []) :=
  (complete_allocation_sweep_idempotent c10_kit c10_state [c10_item] none).2

lemma self_not_mem_resolve_targets (targets : List (Option Nat)) (u : Nat) :
    u ∉ resolve_targets targets [u] := by
  intro hmem
  simp [resolve_targets, List.mem_filter] at hmem

lemma resolve_targets_toFinset (ib resp : Option Nat) (subs : List Nat) (u : Nat) :
    (resolve_targets ([ib, resp] ++ subs.map some) [u]).toFinset =
      (([ib, resp].filterMap id).toFinset ∪ subs.toFinset).erase u := by
  ext a
  simp only [List.mem_toFinset, resolve_targets, List.mem_filter, List.mem_filterMap,
    List.mem_append, List.mem_map, List.mem_cons, List.not_mem_nil, or_false, id_eq,
    Finset.mem_erase, Finset.mem_union, List.mem_singleton, decide_eq_true_eq]
  aesop

/-- C6: `KitBuild.complete(user)` is atomic — whenever any step after the
status write raises (event emission, target computation, or notification
dispatch), the whole call is rolled back: the kit row is returned unchanged,
the counter state is unchanged, and nothing is dispatched. -/
theorem complete_atomic_rollback (k : KitBuild) (user : Nat) (ctx : CompleteCtx)
    (sctx : SaveCtx)
    (h : ¬(ctx.event_ok = true ∧ ctx.targets_ok = true ∧ ctx.notify_ok = true)) :
    KitBuild.complete k user ctx sctx = (k, sctx, none) := by
  unfold KitBuild.complete KitBuild.complete_go
  cases he : ctx.event_ok with
  | false => simp
  | true =>
    cases ht : ctx.targets_ok with
    | false => simp
    | true =>
      cases hn : ctx.notify_ok with
      | false => simp
      | true => exact absurd ⟨he, ht, hn⟩ h

/-- Concrete kit for the C6 witness. -/
def c6_kit : KitBuild :=
  ⟨some 9, "KIT-9", ⟨9, ⟨1, []⟩, some 100, some 200⟩, some ⟨1, []⟩, 1, KitStatus.PENDING,
    none, none⟩

theorem complete_atomic_rollback_witness :
    ¬((⟨20, true, true, false⟩ : CompleteCtx).event_ok = true ∧
        (⟨20, true, true, false⟩ : CompleteCtx).targets_ok = true ∧
        (⟨20, true, true, false⟩ : CompleteCtx).notify_ok = true) ∧
    KitBuild.complete c6_kit 100 ⟨20, true, true, false⟩ ⟨5, 5⟩ = (c6_kit, ⟨5, 5⟩, none) :=
  ⟨by decide, complete_atomic_rollback c6_kit 100 ⟨20, true, true, false⟩ ⟨5, 5⟩ (by decide)⟩

/-- C7: a successful `complete(user)` sets `completion_date` to the current
date, `completed_by` to the acting user, and `status` to `COMPLETE`, and
dispatches a `kit.completed` notification whose resolved target set is
`\x7bbuild.issued_by, build.responsible\x7d` together with the part's
subscribers, with the acting user removed — in particular the acting user is
never among the targets. -/
theorem complete_success_spec (k : KitBuild) (user : Nat) (ctx : CompleteCtx)
    (sctx : SaveCtx) (p : Part)
    (he : ctx.event_ok = true) (ht : ctx.targets_ok = true) (hn : ctx.notify_ok = true)
    (hp : k.part = some p) :
    (KitBuild.complete k user ctx sctx).1.completion_date = some ctx.today ∧
    (KitBuild.complete k user ctx sctx).1.completed_by = some user ∧
    (KitBuild.complete k user ctx sctx).1.status = KitStatus.COMPLETE ∧
    ∃ ev n, (KitBuild.complete k user ctx sctx).2.2 = some (ev, n) ∧
      n.slug = "kit.completed" ∧ user ∉ n.target_users ∧
      n.target_users.toFinset =
        (([k.build.issued_by, k.build.responsible].filterMap id).toFinset ∪
          p.subscribers.toFinset).erase user := by
  unfold KitBuild.complete KitBuild.complete_go
  rw [he, ht, hn]
  simp only [Bool.not_true, Bool.false_eq_true, if_false]
  refine ⟨?_, ?_, ?_, ?_⟩
  · simp [KitBuild.save]
  · simp [KitBuild.save]
  · simp [KitBuild.save]
  · refine ⟨_, _, rfl, rfl, ?_, ?_⟩
    · simp only [KitBuild.save, hp]
      exact self_not_mem_resolve_targets _ user
    · simp only [KitBuild.save, hp]
      exact resolve_targets_toFinset k.build.issued_by k.build.responsible p.subscribers user

/-- Concrete kit for the C7 witness: issued by user 100, responsible user 200,
completed by the issuing user 100. -/
def c7_kit : KitBuild :=
  ⟨some 8, "KIT-8", ⟨8, ⟨1, [300]⟩, some 100, some 200⟩, some ⟨1, [300]⟩, 1,
    KitStatus.PENDING, none, none⟩

theorem complete_success_spec_witness :
    (KitBuild.complete c7_kit 100 ⟨20, true, true, true⟩ ⟨5, 5⟩).1.completion_date =
        some 20 ∧
    (KitBuild.complete c7_kit 100 ⟨20, true, true, true⟩ ⟨5, 5⟩).1.completed_by =
        some 100 ∧
    (KitBuild.complete c7_kit 100 ⟨20, true, true, true⟩ ⟨5, 5⟩).1.status =
        KitStatus.COMPLETE ∧
    ∃ ev n,
      (KitBuild.complete c7_kit 100 ⟨20, true, true, true⟩ ⟨5, 5⟩).2.2 = some (ev, n) ∧
        n.slug = "kit.completed" ∧ 100 ∉ n.target_users ∧
        n.target_users.toFinset =
          (([c7_kit.build.issued_by, c7_kit.build.responsible].filterMap id).toFinset ∪
            (⟨1, [300]⟩ : Part).subscribers.toFinset).erase 100 :=
  complete_success_spec c7_kit 100 ⟨20, true, true, true⟩ ⟨5, 5⟩ ⟨1, [300]⟩ rfl rfl rfl rfl

end Kit
